import Mathlib

/-!
Shallow embedding of `src/computeSales.py`: a program that loads a JSON price
catalog and a JSON list of sales records, validates each record, joins sales
against the catalog and prints a formatted total, printing a warning for every
invalid or unmatched record.

JSON values decoded by `json.load` are modelled by `JValue`; Python integers
and floats are distinct constructors (as they are distinct Python types), and
floats are modelled exactly by rationals.  Python `print` calls are modelled as
emitted output events; `for` loops are modelled as structural recursion.
-/

/-- A decoded JSON value as produced by Python's `json.load`.  Booleans are
kept separate from integers (they are a distinct constructor), but the Python
predicate `isinstance(x, int)` is true of booleans, see `pyIsInt`. -/
inductive JValue where
  | jnull : JValue
  | jbool : Bool → JValue
  | jint : Int → JValue
  | jfloat : Rat → JValue
  | jstr : String → JValue
  | jarr : List JValue → JValue
  | jobj : List (String × JValue) → JValue

/-- Python `isinstance(x, str)`. -/
def pyIsStr : JValue → Bool
  | JValue.jstr _ => true
  | _ => false

/-- Python `isinstance(x, int)`: true of integers and of booleans, since
`bool` is a subclass of `int` in Python. -/
def pyIsInt : JValue → Bool
  | JValue.jint _ => true
  | JValue.jbool _ => true
  | _ => false

/-- Python `isinstance(x, (int, float))`: integers, booleans and floats. -/
def pyIsNumeric : JValue → Bool
  | JValue.jint _ => true
  | JValue.jbool _ => true
  | JValue.jfloat _ => true
  | _ => false

/-- Python `isinstance(x, list)`. -/
def pyIsList : JValue → Bool
  | JValue.jarr _ => true
  | _ => false

/-- Python `isinstance(x, dict)`. -/
def pyIsDict : JValue → Bool
  | JValue.jobj _ => true
  | _ => false

/-- Numeric value of a Python number (`True` counts as 1, `False` as 0). -/
def toRat : JValue → Rat
  | JValue.jint n => (n : Rat)
  | JValue.jbool b => if b then 1 else 0
  | JValue.jfloat q => q
  | _ => 0

/-- Key lookup in a decoded JSON object.  `json.load` builds a Python `dict`,
where a duplicated key keeps the value of its last occurrence, hence the
lookup scans from the back. -/
def objLookup : List (String × JValue) → String → Option JValue
  | [], _ => none
  | (k, v) :: rest, key =>
    match objLookup rest key with
    | some r => some r
    | none => if k = key then some v else none

/-- Lookup in the extracted-prices `dict`, modelled as the list of assignments
in execution order: a later assignment to the same key wins. -/
def dictLookup : List (String × JValue) → String → Option JValue
  | [], _ => none
  | (k, v) :: rest, key =>
    match dictLookup rest key with
    | some r => some r
    | none => if k = key then some v else none

/-- Python `product in price_catalog`. -/
def dictMem (d : List (String × JValue)) (key : String) : Bool :=
  (dictLookup d key).isSome

/-- Python `price_catalog[product]` (meaningful when the key is present). -/
def dictGet (d : List (String × JValue)) (key : String) : JValue :=
  (dictLookup d key).getD JValue.jnull

/-- Second line of every catalog-validator diagnostic (source lines 45, 50, 57). -/
def catalogNote : String := "\n\tProduct will not be included in calculations."

/-- Second line of every sales diagnostic (source lines 75, 80, 85, 102). -/
def salesNote : String := "\n\tSale of item(s) will not be included in calculation"

/-- First line of the invalid-format diagnostic. -/
def invalidFormatAt (i : Nat) : String :=
  "Warning: Invalid format at index " ++ toString i ++ "."

/-- First line of the missing-title diagnostic. -/
def missingTitleAt (i : Nat) : String :=
  "Warning: Missing title at index " ++ toString i ++ "."

/-- First line of the missing-price diagnostic. -/
def missingPriceAt (i : Nat) : String :=
  "Warning: Missing price at index " ++ toString i ++ "."

/-- First line of the missing-product diagnostic. -/
def missingProductAt (i : Nat) : String :=
  "Warning: Missing product at index " ++ toString i ++ "."

/-- First line of the missing-quantity diagnostic. -/
def missingQuantityAt (i : Nat) : String :=
  "Warning: Missing quantity at index " ++ toString i ++ "."

/-- The `try` body of `validate_price_catalog` for one element: the three
checks in source order, raising (`Except.error`) the `ValidationError` message
of the first failing check, else returning the `(title, price)` pair that the
source stores into `extracted_prices`. -/
def checkCatalogItem (index : Nat) (item : JValue) : Except String (String × JValue) :=
  match item with
  | JValue.jobj kvs =>
    match objLookup kvs "title" with
    | some (JValue.jstr t) =>
      match objLookup kvs "price" with
      | some p =>
        if pyIsNumeric p then Except.ok (t, p)
        else Except.error (missingPriceAt index ++ catalogNote)
      | none => Except.error (missingPriceAt index ++ catalogNote)
    | some _ => Except.error (missingTitleAt index ++ catalogNote)
    | none => Except.error (missingTitleAt index ++ catalogNote)
  | _ => Except.error (invalidFormatAt index ++ catalogNote)

/-- The `for index, item in enumerate(price_catalog)` loop: the list of
assignments made to `extracted_prices`, in order, paired with the list of
lines printed (a caught `ValidationError` is printed as `"Error: " + e`). -/
def validateCatalogFrom : Nat → List JValue → List (String × JValue) × List String
  | _, [] => ([], [])
  | i, item :: rest =>
    let r := validateCatalogFrom (i + 1) rest
    match checkCatalogItem i item with
    | Except.ok tp => (tp :: r.1, r.2)
    | Except.error msg => (r.1, ("Error: " ++ msg) :: r.2)

/-- `validate_price_catalog` (source lines 35-62): returns the extracted
title-to-price mapping and the printed diagnostic lines. -/
def validate_price_catalog (price_catalog : JValue) : List (String × JValue) × List String :=
  match price_catalog with
  | JValue.jarr items => validateCatalogFrom 0 items
  | _ => ([], ["Error: Price catalog format is invalid"])

example : validate_price_catalog (JValue.jarr [JValue.jobj [("title", JValue.jstr "A"), ("price", JValue.jint 10)]])
    = ([("A", JValue.jint 10)], []) := rfl

example : (validate_price_catalog (JValue.jarr [JValue.jint 5])).2
    = ["Error: Warning: Invalid format at index 0.\n\tProduct will not be included in calculations."] := rfl

example : (validate_price_catalog (JValue.jobj [])).2
    = ["Error: Price catalog format is invalid"] := rfl

/-- Index-free extraction of one catalog record: `some (title, price)` exactly
when the record passes all three checks.  The index only affects the message
text of `checkCatalogItem`, never which branch is taken. -/
def recordOk (item : JValue) : Option (String × JValue) :=
  match checkCatalogItem 0 item with
  | Except.ok tp => some tp
  | Except.error _ => none

/-- The `try` body of `validate_sales_records` for one element: the three
checks in source order, raising (`Except.error`) the message of the first
failing check, else returning the `(Product, Quantity)` pair appended to
`extracted_sales`. -/
def checkSaleItem (index : Nat) (sale : JValue) : Except String (String × JValue) :=
  match sale with
  | JValue.jobj kvs =>
    match objLookup kvs "Product" with
    | some (JValue.jstr prod) =>
      match objLookup kvs "Quantity" with
      | some q =>
        if pyIsInt q then Except.ok (prod, q)
        else Except.error (missingQuantityAt index ++ salesNote)
      | none => Except.error (missingQuantityAt index ++ salesNote)
    | some _ => Except.error (missingProductAt index ++ salesNote)
    | none => Except.error (missingProductAt index ++ salesNote)
  | _ => Except.error (invalidFormatAt index ++ salesNote)

/-- Index-free extraction of one sales record. -/
def saleOk (sale : JValue) : Option (String × JValue) :=
  match checkSaleItem 0 sale with
  | Except.ok pq => some pq
  | Except.error _ => none

/-- The `ok` component of an element check, forgetting the error message. -/
def exceptOk {α : Type} : Except String α → Option α
  | Except.ok a => some a
  | Except.error _ => none

/-- The diagnostic lines printed for one element by a validator loop body:
none on success, the one caught-and-printed line on failure. -/
def elemDiags {α : Type} (check : Except String α) : List String :=
  match check with
  | Except.ok _ => []
  | Except.error msg => ["Error: " ++ msg]

/-- The Python condition `not ("title" not in item or not isinstance(item["title"], str))`
for a decoded object. -/
def titleOkB (kvs : List (String × JValue)) : Bool :=
  match objLookup kvs "title" with
  | some v => pyIsStr v
  | none => false

/-- The Python condition `not ("price" not in item or not isinstance(item["price"], (int, float)))`
for a decoded object. -/
def priceOkB (kvs : List (String × JValue)) : Bool :=
  match objLookup kvs "price" with
  | some v => pyIsNumeric v
  | none => false

/-- The `for index, sale in enumerate(sales_records)` loop: the appended
`(Product, Quantity)` pairs in order, and the printed diagnostic lines. -/
def validateSalesFrom : Nat → List JValue → List (String × JValue) × List String
  | _, [] => ([], [])
  | i, sale :: rest =>
    let r := validateSalesFrom (i + 1) rest
    match checkSaleItem i sale with
    | Except.ok pq => (pq :: r.1, r.2)
    | Except.error msg => (r.1, ("Error: " ++ msg) :: r.2)

/-- `validate_sales_records` (source lines 65-92): returns the extracted
`(Product, Quantity)` sequence and the printed diagnostic lines. -/
def validate_sales_records (sales_records : JValue) : List (String × JValue) × List String :=
  match sales_records with
  | JValue.jarr sales => validateSalesFrom 0 sales
  | _ => ([], ["Error: Sales records format is invalid"])

/-- The warning printed by the aggregator for a sale whose product is not a
catalog key (source lines 100-103). -/
def soldWarn (product : String) : String :=
  "Warning: Sold product '" ++ product ++ "' not in catalog." ++ salesNote

/-- `compute_total_sales` (source lines 95-105): the accumulated total,
starting from `0.0`, and the printed warnings.  Python float arithmetic is
modelled exactly over the rationals. -/
def compute_total_sales (price_catalog : List (String × JValue)) :
    List (String × JValue) → Rat × List String
  | [] => (0, [])
  | (product, quantity) :: rest =>
    let r := compute_total_sales price_catalog rest
    match dictLookup price_catalog product with
    | some price => (toRat price * toRat quantity + r.1, r.2)
    | none => (r.1, soldWarn product :: r.2)

example : (compute_total_sales [("A", JValue.jint 10)] [("A", JValue.jint 3)]).1 = 30 := by
  norm_num [compute_total_sales, dictLookup, toRat]

example : (compute_total_sales [("A", JValue.jint 10)] [("B", JValue.jint 1)]).2
    = ["Warning: Sold product 'B' not in catalog.\n\tSale of item(s) will not be included in calculation"] := rfl

/-- The two output sinks of `print_plus`: the console (`print`) and the log
file handler. -/
inductive Sink where
  | console : Sink
  | logFile : Sink
deriving DecidableEq

/-- One emitted output line, tagged with the sink it went to. -/
structure OutEvent where
  sink : Sink
  line : String
deriving DecidableEq

/-- A plain Python `print(content)`: one console line. -/
def printEvt (content : String) : OutEvent :=
  OutEvent.mk Sink.console content

/-- `print_plus` (source lines 11-20): prints `content` to the console and
writes the same line to the file handler. -/
def print_plus (content : String) : List OutEvent :=
  [OutEvent.mk Sink.console content, OutEvent.mk Sink.logFile content]

/-- Outcome of opening and JSON-decoding a named file. -/
inductive FileResult where
  | notFound : FileResult
  | badJson : FileResult
  | parsed : JValue → FileResult

/-- `load_json` (source lines 23-32): returns the decoded value, or `none`
with an error line on a missing file or invalid JSON.  The file system is a
map from names to outcomes. -/
def load_json (fs : String → FileResult) (filename : String) : Option JValue × List String :=
  match fs filename with
  | FileResult.notFound => (none, ["Error: File '" ++ filename ++ "' not found."])
  | FileResult.badJson => (none, ["Error: File '" ++ filename ++ "' is not a valid JSON."])
  | FileResult.parsed v => (some v, [])

/-- Rounding of `q` to a whole number of cents, ties to even, as Python's
`format(x, ",.2f")` rounds to two decimal places. -/
def roundHalfEvenCents (q : Rat) : Int :=
  let x := q * 100
  let n := ⌊x⌋
  let r := x - (n : Rat)
  if r < 1 / 2 then n
  else if 1 / 2 < r then n + 1
  else if n % 2 = 0 then n else n + 1

/-- Insert a comma after every third digit; the input and output digit lists
run from the least significant digit. -/
def commaChunks : List Char → List Char
  | a :: b :: c :: d :: rest => a :: b :: c :: ',' :: commaChunks (d :: rest)
  | l => l

/-- Decimal digits of `n` grouped in threes by commas, as Python's `,`
format option renders the integer part. -/
def groupDigits (n : Nat) : String :=
  String.mk (commaChunks (Nat.toDigits 10 n).reverse).reverse

/-- A cents remainder `c < 100` rendered as exactly two decimal digits. -/
def twoDec (c : Nat) : String :=
  String.mk [Nat.digitChar (c / 10 % 10), Nat.digitChar (c % 10)]

/-- Python `f"{total:,.2f}"`: sign, thousands-grouped integer part, a dot,
and exactly two decimal digits. -/
def fmtMoney (q : Rat) : String :=
  let cents := roundHalfEvenCents q
  let a := cents.natAbs
  (if cents < 0 then "-" else "") ++ groupDigits (a / 100) ++ "." ++ twoDec (a % 100)

example : roundHalfEvenCents 0 = 0 := by
  simp [roundHalfEvenCents]

example : fmtMoney 0 = "0.00" := by
  have h : roundHalfEvenCents 0 = 0 := by simp [roundHalfEvenCents]
  simp [fmtMoney, h]
  decide

example : fmtMoney (123456 / 100) = "1,234.56" := by
  have hx : ((123456 : Rat) / 100) * 100 = ((123456 : Int) : Rat) := by norm_num
  have h : roundHalfEvenCents (123456 / 100) = 123456 := by
    simp [roundHalfEvenCents, hx]
  simp [fmtMoney, h]
  decide

/-- Result of a `main` run: the output events emitted, in order, and the list
of files opened, in order. -/
structure MainResult where
  trace : List OutEvent
  accessed : List String
deriving DecidableEq

namespace ComputeSales

/-- `main` (source lines 108-134) after argument parsing: load the catalog,
exit on failure; validate; load the sales records, exit on failure; validate,
aggregate, and print the formatted total.  Every source `print` becomes a
console event via `printEvt`. -/
def main (fs : String → FileResult) (price_path sales_path : String) : MainResult :=
  let catLoad := load_json fs price_path
  match catLoad.1 with
  | none => MainResult.mk ((catLoad.2 ++ ["Exiting"]).map printEvt) [price_path]
  | some price_catalog =>
    let validated := validate_price_catalog price_catalog
    let salesLoad := load_json fs sales_path
    match salesLoad.1 with
    | none =>
      MainResult.mk
        ((catLoad.2 ++ validated.2 ++ salesLoad.2 ++ ["Exiting"]).map printEvt)
        [price_path, sales_path]
    | some sales_records =>
      let vsales := validate_sales_records sales_records
      let result := compute_total_sales validated.1 vsales.1
      MainResult.mk
        ((catLoad.2 ++ validated.2 ++ salesLoad.2 ++ vsales.2 ++ result.2
            ++ ["\nTotal Sales: $" ++ fmtMoney result.1]).map printEvt)
        [price_path, sales_path]

end ComputeSales

example :
    (ComputeSales.main (fun _ => FileResult.parsed (JValue.jarr [])) "c" "s").trace
      = [printEvt "\nTotal Sales: $0.00"] := by
  have h : roundHalfEvenCents 0 = 0 := by simp [roundHalfEvenCents]
  simp [ComputeSales.main, load_json, validate_price_catalog, validate_sales_records,
    validateCatalogFrom, validateSalesFrom, compute_total_sales, fmtMoney, h]
  decide

/-! ## Helper lemmas -/

theorem checkCatalogItem_exceptOk (i : Nat) (item : JValue) :
    exceptOk (checkCatalogItem i item) = recordOk item := by
  unfold recordOk
  cases item <;> simp only [checkCatalogItem, exceptOk]
  rename_i kvs
  cases ht : objLookup kvs "title" with
  | none => simp [exceptOk]
  | some v =>
    cases v <;> simp only [exceptOk]
    rename_i t
    cases hp : objLookup kvs "price" with
    | none => simp [exceptOk]
    | some p =>
      by_cases hn : pyIsNumeric p = true <;> simp [hn, exceptOk]

theorem checkSaleItem_exceptOk (i : Nat) (sale : JValue) :
    exceptOk (checkSaleItem i sale) = saleOk sale := by
  unfold saleOk
  cases sale <;> simp only [checkSaleItem, exceptOk]
  rename_i kvs
  cases ht : objLookup kvs "Product" with
  | none => simp [exceptOk]
  | some v =>
    cases v <;> simp only [exceptOk]
    rename_i t
    cases hp : objLookup kvs "Quantity" with
    | none => simp [exceptOk]
    | some p =>
      by_cases hn : pyIsInt p = true <;> simp [hn, exceptOk]

theorem validateCatalogFrom_pairs (i : Nat) (items : List JValue) :
    (validateCatalogFrom i items).1 = items.filterMap recordOk := by
  induction items generalizing i with
  | nil => rfl
  | cons item rest ih =>
    have h := checkCatalogItem_exceptOk i item
    cases hc : checkCatalogItem i item with
    | ok tp =>
      rw [hc] at h
      simp [validateCatalogFrom, hc, List.filterMap_cons, ← h, exceptOk, ih]
    | error msg =>
      rw [hc] at h
      simp [validateCatalogFrom, hc, List.filterMap_cons, ← h, exceptOk, ih]

theorem validateSalesFrom_pairs (i : Nat) (sales : List JValue) :
    (validateSalesFrom i sales).1 = sales.filterMap saleOk := by
  induction sales generalizing i with
  | nil => rfl
  | cons sale rest ih =>
    have h := checkSaleItem_exceptOk i sale
    cases hc : checkSaleItem i sale with
    | ok pq =>
      rw [hc] at h
      simp [validateSalesFrom, hc, List.filterMap_cons, ← h, exceptOk, ih]
    | error msg =>
      rw [hc] at h
      simp [validateSalesFrom, hc, List.filterMap_cons, ← h, exceptOk, ih]

theorem dictLookup_of_absent (l : List (String × JValue)) (k : String)
    (h : ∀ e ∈ l, e.1 ≠ k) : dictLookup l k = none := by
  induction l with
  | nil => rfl
  | cons e rest ih =>
    have hrest : dictLookup rest k = none := ih fun x hx => h x (List.mem_cons_of_mem e hx)
    have hk : e.1 ≠ k := h e (List.mem_cons_self e rest)
    simp [dictLookup, hrest, hk]

theorem dictLookup_append_right (l1 l2 : List (String × JValue)) (k : String) (v : JValue)
    (h : dictLookup l2 k = some v) : dictLookup (l1 ++ l2) k = some v := by
  induction l1 with
  | nil => simpa using h
  | cons e rest ih => simp [dictLookup, ih]

/-! ## C1: the aggregator is an exact filtered sum with one warning per miss -/

/-- C1: `compute_total_sales` returns exactly the sum, started at 0, of
`catalog[product] * quantity` over the sales pairs whose product is a catalog
key, and its warnings are exactly one `soldWarn` line per unmatched pair. -/
theorem compute_total_sales_spec (pc : List (String × JValue)) (sales : List (String × JValue)) :
    (compute_total_sales pc sales).1
        = ((sales.filter fun s => dictMem pc s.1).map fun s => toRat (dictGet pc s.1) * toRat s.2).sum
      ∧ (compute_total_sales pc sales).2
        = (sales.filter fun s => !dictMem pc s.1).map fun s => soldWarn s.1 := by
  induction sales with
  | nil => exact ⟨rfl, rfl⟩
  | cons s rest ih =>
    obtain ⟨p, q⟩ := s
    cases h : dictLookup pc p with
    | none =>
      simp [compute_total_sales, h, dictMem, dictGet, List.filter_cons, ih.1, ih.2]
    | some price =>
      simp [compute_total_sales, h, dictMem, dictGet, List.filter_cons, ih.1, ih.2]

/-! ## C6: non-sequence inputs give empty results and exactly one diagnostic -/

/-- C6: on any value that is not a list, `validate_price_catalog` returns the
empty mapping and `validate_sales_records` the empty sequence, each printing
exactly the one format-is-invalid line. -/
theorem validators_non_list (v : JValue) (h : pyIsList v = false) :
    validate_price_catalog v = ([], ["Error: Price catalog format is invalid"])
      ∧ validate_sales_records v = ([], ["Error: Sales records format is invalid"]) := by
  cases v <;> simp_all [pyIsList, validate_price_catalog, validate_sales_records]

/-- Witness for C6 at the concrete non-list input `null`. -/
theorem validators_non_list_witness :
    validate_price_catalog JValue.jnull = ([], ["Error: Price catalog format is invalid"])
      ∧ validate_sales_records JValue.jnull = ([], ["Error: Sales records format is invalid"]) :=
  validators_non_list JValue.jnull rfl

/-! ## C10: booleans pass the integer and numeric type checks -/

/-- C10: `isinstance(x, int)` and `isinstance(x, (int, float))` accept
booleans, so a sale whose `Quantity` is `True` is extracted as a valid pair
and a catalog record whose `price` is `True` enters the mapping. -/
theorem bool_passes_type_checks :
    (∀ b : Bool, pyIsInt (JValue.jbool b) = true ∧ pyIsNumeric (JValue.jbool b) = true)
      ∧ validate_sales_records
          (JValue.jarr [JValue.jobj [("Product", JValue.jstr "A"), ("Quantity", JValue.jbool true)]])
          = ([("A", JValue.jbool true)], [])
      ∧ validate_price_catalog
          (JValue.jarr [JValue.jobj [("title", JValue.jstr "B"), ("price", JValue.jbool true)]])
          = ([("B", JValue.jbool true)], []) :=
  ⟨fun _ => ⟨rfl, rfl⟩, rfl, rfl⟩

/-- A non-record catalog element always fails the first check with the
invalid-format message. -/
theorem checkCatalogItem_non_dict (i : Nat) (item : JValue) (h : pyIsDict item = false) :
    checkCatalogItem i item = Except.error (invalidFormatAt i ++ catalogNote) := by
  cases item <;> simp_all [pyIsDict, checkCatalogItem]

/-! ## C4: catalog checks are ordered and short-circuit -/

/-- C4: each catalog element contributes the diagnostics of its own check
alone (at most one line), and the check runs record-ness, then title, then
price, stopping at the first failure: a non-record always gets the
invalid-format message, a record failing the title check always gets the
missing-title message whatever its price looks like, and only a record with a
valid title can get the missing-price message. -/
theorem catalog_checks_short_circuit :
    (∀ i item rest, (validateCatalogFrom i (item :: rest)).2
        = elemDiags (checkCatalogItem i item) ++ (validateCatalogFrom (i + 1) rest).2)
    ∧ (∀ i item, (elemDiags (checkCatalogItem i item)).length ≤ 1)
    ∧ (∀ i item, pyIsDict item = false →
        checkCatalogItem i item = Except.error (invalidFormatAt i ++ catalogNote))
    ∧ (∀ i kvs, titleOkB kvs = false →
        checkCatalogItem i (JValue.jobj kvs) = Except.error (missingTitleAt i ++ catalogNote))
    ∧ (∀ i kvs, titleOkB kvs = true → priceOkB kvs = false →
        checkCatalogItem i (JValue.jobj kvs) = Except.error (missingPriceAt i ++ catalogNote))
    ∧ (∀ i kvs, titleOkB kvs = true → priceOkB kvs = true →
        ∃ t p, objLookup kvs "title" = some (JValue.jstr t)
          ∧ objLookup kvs "price" = some p
          ∧ checkCatalogItem i (JValue.jobj kvs) = Except.ok (t, p)) := by
  refine ⟨?_, ?_, ?_, ?_, ?_, ?_⟩
  · intro i item rest
    cases hc : checkCatalogItem i item <;> simp [validateCatalogFrom, hc, elemDiags]
  · intro i item
    cases hc : checkCatalogItem i item <;> simp [hc, elemDiags]
  · exact fun i item h => checkCatalogItem_non_dict i item h
  · intro i kvs h
    unfold titleOkB at h
    cases ht : objLookup kvs "title" with
    | none => simp [checkCatalogItem, ht]
    | some v =>
      rw [ht] at h
      cases v <;> simp_all [checkCatalogItem, ht, pyIsStr]
  · intro i kvs ht hp
    unfold titleOkB at ht
    unfold priceOkB at hp
    cases h1 : objLookup kvs "title" with
    | none => rw [h1] at ht; exact absurd ht (by simp)
    | some v =>
      rw [h1] at ht
      cases v with
      | jstr t =>
        cases h2 : objLookup kvs "price" with
        | none => simp [checkCatalogItem, h1, h2]
        | some p =>
          rw [h2] at hp
          change pyIsNumeric p = false at hp
          simp [checkCatalogItem, h1, h2, hp]
      | jnull => simp [pyIsStr] at ht
      | jbool b => simp [pyIsStr] at ht
      | jint n => simp [pyIsStr] at ht
      | jfloat r => simp [pyIsStr] at ht
      | jarr l => simp [pyIsStr] at ht
      | jobj o => simp [pyIsStr] at ht
  · intro i kvs ht hp
    unfold titleOkB at ht
    unfold priceOkB at hp
    cases h1 : objLookup kvs "title" with
    | none => rw [h1] at ht; exact absurd ht (by simp)
    | some v =>
      rw [h1] at ht
      cases v with
      | jstr t =>
        cases h2 : objLookup kvs "price" with
        | none => rw [h2] at hp; exact absurd hp (by simp)
        | some p =>
          rw [h2] at hp
          change pyIsNumeric p = true at hp
          exact ⟨t, p, rfl, rfl, by simp [checkCatalogItem, h1, h2, hp]⟩
      | jnull => simp [pyIsStr] at ht
      | jbool b => simp [pyIsStr] at ht
      | jint n => simp [pyIsStr] at ht
      | jfloat r => simp [pyIsStr] at ht
      | jarr l => simp [pyIsStr] at ht
      | jobj o => simp [pyIsStr] at ht

/-- Witness for C4: an empty record fails the title check first, so its one
diagnostic is the missing-title line even though its price is also missing. -/
theorem catalog_checks_short_circuit_witness :
    checkCatalogItem 0 (JValue.jobj []) = Except.error (missingTitleAt 0 ++ catalogNote) :=
  catalog_checks_short_circuit.2.2.2.1 0 [] rfl

/-! ## C3: the exact diagnostic text (corrected) -/

/-- C3 as stated is false: the program never prints the bare template
`Warning: Invalid format at index 0`; every validator diagnostic is prefixed
with `Error: ` and every diagnostic carries a trailing period and a second,
tab-indented explanation line. -/
theorem diagnostic_templates_counterexample :
    (validate_price_catalog (JValue.jarr [JValue.jint 5])).2
        ≠ ["Warning: Invalid format at index 0"]
      ∧ (compute_total_sales [] [("B", JValue.jint 1)]).2
        ≠ ["Warning: Sold product 'B' not in catalog"] := by
  exact ⟨by decide, by decide⟩

/-- C3 amended: the diagnostics do follow fixed templates, but a catalog
validator line for a non-record element is
`Error: Warning: Invalid format at index i.` followed by a tab-indented
explanation on a second line, and a join-miss line is
`Warning: Sold product '<product>' not in catalog.` followed by its own
tab-indented explanation line. -/
theorem diagnostic_templates :
    (∀ i (item : JValue) rest, pyIsDict item = false →
        (validateCatalogFrom i (item :: rest)).2
          = ("Error: Warning: Invalid format at index " ++ toString i
              ++ ".\n\tProduct will not be included in calculations.")
            :: (validateCatalogFrom (i + 1) rest).2)
      ∧ (∀ pc p (q : JValue) rest, dictMem pc p = false →
        (compute_total_sales pc ((p, q) :: rest)).2
          = ("Warning: Sold product '" ++ p
              ++ "' not in catalog.\n\tSale of item(s) will not be included in calculation")
            :: (compute_total_sales pc rest).2) := by
  constructor
  · intro i item rest h
    have hc : checkCatalogItem i item = Except.error (invalidFormatAt i ++ catalogNote) :=
      checkCatalogItem_non_dict i item h
    have e1 : "Error: " ++ "Warning: Invalid format at index "
        = "Error: Warning: Invalid format at index " := rfl
    have e2 : "." ++ "\n\tProduct will not be included in calculations."
        = ".\n\tProduct will not be included in calculations." := rfl
    simp only [validateCatalogFrom, hc, invalidFormatAt, catalogNote, List.cons.injEq,
      and_true, ← String.append_assoc, e1]
    conv_lhs => rw [String.append_assoc]
    rw [e2]
  · intro pc p q rest h
    have hl : dictLookup pc p = none := by
      unfold dictMem at h
      cases hl : dictLookup pc p with
      | none => rfl
      | some v => rw [hl] at h; simp at h
    have e3 : "' not in catalog." ++ "\n\tSale of item(s) will not be included in calculation"
        = "' not in catalog.\n\tSale of item(s) will not be included in calculation" := rfl
    simp only [compute_total_sales, hl, soldWarn, salesNote, List.cons.injEq, and_true,
      ← String.append_assoc]
    conv_lhs => rw [String.append_assoc]
    rw [e3]

/-- Witness for the amended C3 at concrete inputs. -/
theorem diagnostic_templates_witness :
    (validateCatalogFrom 0 [JValue.jint 5]).2
        = ("Error: Warning: Invalid format at index 0"
            ++ ".\n\tProduct will not be included in calculations.")
          :: (validateCatalogFrom 1 []).2
      ∧ (compute_total_sales [] [("B", JValue.jint 1)]).2
        = ("Warning: Sold product 'B"
            ++ "' not in catalog.\n\tSale of item(s) will not be included in calculation")
          :: (compute_total_sales [] []).2 :=
  ⟨diagnostic_templates.1 0 (JValue.jint 5) [] rfl,
   diagnostic_templates.2 [] "B" (JValue.jint 1) [] rfl⟩

/-! ## C7: the sales validator keeps exactly the well-formed pairs in order -/

/-- C7: on a sequence input the extracted sales are `filterMap saleOk` (so
order is preserved and duplicates retained), a record is kept exactly when it
is a key-value structure with a text `Product` and a `Quantity` passing the
Python integer check, and a floating-point `Quantity` is always rejected. -/
theorem sales_validator_spec :
    (∀ sales : List JValue,
        (validate_sales_records (JValue.jarr sales)).1 = sales.filterMap saleOk)
      ∧ (∀ item, pyIsDict item = false → saleOk item = none)
      ∧ (∀ kvs p q, saleOk (JValue.jobj kvs) = some (p, q)
          ↔ objLookup kvs "Product" = some (JValue.jstr p)
            ∧ objLookup kvs "Quantity" = some q ∧ pyIsInt q = true)
      ∧ (∀ kvs x, objLookup kvs "Quantity" = some (JValue.jfloat x) →
          saleOk (JValue.jobj kvs) = none) := by
  refine ⟨?_, ?_, ?_, ?_⟩
  · intro sales
    simpa [validate_sales_records] using validateSalesFrom_pairs 0 sales
  · intro item h
    cases item <;> simp_all [pyIsDict, saleOk, checkSaleItem]
  · intro kvs p q
    unfold saleOk checkSaleItem
    cases h1 : objLookup kvs "Product" with
    | none => simp [h1]
    | some v =>
      cases v with
      | jstr t =>
        cases h2 : objLookup kvs "Quantity" with
        | none => simp [h1, h2]
        | some w =>
          constructor
          · intro hs
            by_cases hw : pyIsInt w = true
            · simp [h1, h2, hw] at hs
              obtain ⟨rfl, rfl⟩ := hs
              exact ⟨rfl, rfl, hw⟩
            · simp [h1, h2, hw] at hs
          · rintro ⟨hp2, hq2, hi⟩
            obtain rfl : t = p := by simpa using hp2
            obtain rfl : w = q := by simpa using hq2
            simp [h1, h2, hi]
      | jnull => simp [h1]
      | jbool b => simp [h1]
      | jint n => simp [h1]
      | jfloat r => simp [h1]
      | jarr l => simp [h1]
      | jobj o => simp [h1]
  · intro kvs x h
    unfold saleOk checkSaleItem
    cases h1 : objLookup kvs "Product" with
    | none => simp [h1]
    | some v =>
      cases v <;> simp [h1, h, pyIsInt]

/-- Witness for C7: a whole-valued floating-point quantity is rejected. -/
theorem sales_validator_spec_witness :
    saleOk (JValue.jobj [("Product", JValue.jstr "A"), ("Quantity", JValue.jfloat 2)]) = none :=
  sales_validator_spec.2.2.2 [("Product", JValue.jstr "A"), ("Quantity", JValue.jfloat 2)] 2 rfl


/-! ## C5: duplicate titles — last write wins -/

/-- C5: if a catalog contains a valid record `item` titled `t` with price `p`
and no later element is a valid record titled `t`, the extracted mapping
binds `t` to `p`; in particular, among several valid records sharing a title
the one with the highest index determines the binding. -/
theorem catalog_last_write_wins (pre post : List JValue) (item : JValue) (t : String) (p : JValue)
    (hitem : recordOk item = some (t, p))
    (hpost : ∀ x ∈ post, ∀ p2, recordOk x ≠ some (t, p2)) :
    dictLookup (validate_price_catalog (JValue.jarr (pre ++ item :: post))).1 t = some p := by
  have hpairs : (validate_price_catalog (JValue.jarr (pre ++ item :: post))).1
      = pre.filterMap recordOk ++ (t, p) :: post.filterMap recordOk := by
    simp [validate_price_catalog, validateCatalogFrom_pairs, List.filterMap_append,
      List.filterMap_cons, hitem]
  rw [hpairs]
  apply dictLookup_append_right
  have habs : dictLookup (post.filterMap recordOk) t = none := by
    apply dictLookup_of_absent
    intro e he hkey
    obtain ⟨x, hx, hrec⟩ := List.mem_filterMap.mp he
    obtain ⟨k, v⟩ := e
    subst hkey
    exact hpost x hx v hrec
  simp [dictLookup, habs]

/-- Witness for C5 at the spec's duplicate-title scenario: price 8 of the
later record wins over price 5 of the earlier one. -/
theorem catalog_last_write_wins_witness :
    dictLookup (validate_price_catalog (JValue.jarr
        [JValue.jobj [("title", JValue.jstr "A"), ("price", JValue.jint 5)],
         JValue.jobj [("title", JValue.jstr "A"), ("price", JValue.jint 8)]])).1 "A"
      = some (JValue.jint 8) :=
  catalog_last_write_wins
    [JValue.jobj [("title", JValue.jstr "A"), ("price", JValue.jint 5)]] []
    (JValue.jobj [("title", JValue.jstr "A"), ("price", JValue.jint 8)]) "A" (JValue.jint 8)
    rfl (by simp)

/-! ## C8: a failed load prints Exiting and stops -/

/-- C8: if the catalog document does not load, `main` prints only the
loader's diagnostic followed by `Exiting`, opens no file other than the
catalog path (the sales document is never loaded) and prints no total; if
the catalog loads but the sales document does not, `main` prints the
diagnostics so far followed by `Exiting` and again no total.  In both cases
`Exiting` is the final line. -/
theorem main_early_exit :
    (∀ fs cp sp, (load_json fs cp).1 = none →
        (ComputeSales.main fs cp sp).trace = ((load_json fs cp).2 ++ ["Exiting"]).map printEvt
          ∧ (ComputeSales.main fs cp sp).accessed = [cp]
          ∧ (ComputeSales.main fs cp sp).trace.getLast? = some (printEvt "Exiting"))
      ∧ (∀ fs cp sp v, fs cp = FileResult.parsed v → (load_json fs sp).1 = none →
        (ComputeSales.main fs cp sp).trace
            = ((load_json fs cp).2 ++ (validate_price_catalog v).2
                ++ (load_json fs sp).2 ++ ["Exiting"]).map printEvt
          ∧ (ComputeSales.main fs cp sp).trace.getLast? = some (printEvt "Exiting")) := by
  constructor
  · intro fs cp sp h
    refine ⟨?_, ?_, ?_⟩ <;>
      simp [ComputeSales.main, h, List.map_append, List.getLast?_concat]
  · intro fs cp sp v hc hs
    have hc2 : (load_json fs cp).1 = some v := by simp [load_json, hc]
    refine ⟨?_, ?_⟩ <;>
      simp [ComputeSales.main, hc2, hs, List.map_append, List.getLast?_concat]

/-- Witness for C8: with no file present, `main` prints the not-found line
and `Exiting`, and opens only the catalog path. -/
theorem main_early_exit_witness :
    (ComputeSales.main (fun _ => FileResult.notFound) "a.json" "b.json").trace
        = ((load_json (fun _ => FileResult.notFound) "a.json").2 ++ ["Exiting"]).map printEvt
      ∧ (ComputeSales.main (fun _ => FileResult.notFound) "a.json" "b.json").accessed = ["a.json"]
      ∧ (ComputeSales.main (fun _ => FileResult.notFound) "a.json" "b.json").trace.getLast?
        = some (printEvt "Exiting") :=
  main_early_exit.1 (fun _ => FileResult.notFound) "a.json" "b.json" rfl

/-! ## C9: the final total line and its currency format -/

/-- C9: on the success path the last line `main` prints is a leading blank
line, the label `Total Sales: ` and the dollar total rendered by `fmtMoney`;
`fmtMoney` always ends in a dot followed by exactly two decimal digits, and
renders the spec's example value 1234.56 as `1,234.56`, with a thousands
separator. -/
theorem main_total_line :
    (∀ fs cp sp c s, fs cp = FileResult.parsed c → fs sp = FileResult.parsed s →
        (ComputeSales.main fs cp sp).trace.getLast?
          = some (printEvt ("\nTotal Sales: $"
              ++ fmtMoney (compute_total_sales (validate_price_catalog c).1
                    (validate_sales_records s).1).1)))
      ∧ (∀ q : Rat, ∃ body d1 d2, fmtMoney q = body ++ "." ++ String.mk [d1, d2]
          ∧ d1.isDigit = true ∧ d2.isDigit = true)
      ∧ fmtMoney (123456 / 100) = "1,234.56" := by
  refine ⟨?_, ?_, ?_⟩
  · intro fs cp sp c s hc hs
    have hc2 : (load_json fs cp).1 = some c := by simp [load_json, hc]
    have hs2 : (load_json fs sp).1 = some s := by simp [load_json, hs]
    simp [ComputeSales.main, hc2, hs2, List.map_append, List.getLast?_concat]
  · intro q
    have h10 : ∀ m, m < 10 → (Nat.digitChar m).isDigit = true := by decide
    refine ⟨(if roundHalfEvenCents q < 0 then "-" else "")
        ++ groupDigits ((roundHalfEvenCents q).natAbs / 100),
      Nat.digitChar ((roundHalfEvenCents q).natAbs % 100 / 10 % 10),
      Nat.digitChar ((roundHalfEvenCents q).natAbs % 100 % 10), ?_, ?_, ?_⟩
    · simp [fmtMoney, twoDec, String.append_assoc]
    · exact h10 _ (Nat.mod_lt _ (by norm_num))
    · exact h10 _ (Nat.mod_lt _ (by norm_num))
  · have hx : ((123456 : Rat) / 100) * 100 = ((123456 : Int) : Rat) := by norm_num
    have h : roundHalfEvenCents (123456 / 100) = 123456 := by
      simp [roundHalfEvenCents, hx]
    simp [fmtMoney, h]
    decide

/-- Witness for C9 on a concrete successful run. -/
theorem main_total_line_witness :
    (ComputeSales.main (fun _ => FileResult.parsed (JValue.jarr [])) "c" "s").trace.getLast?
      = some (printEvt ("\nTotal Sales: $"
          ++ fmtMoney (compute_total_sales (validate_price_catalog (JValue.jarr [])).1
                (validate_sales_records (JValue.jarr [])).1).1)) :=
  main_total_line.1 (fun _ => FileResult.parsed (JValue.jarr [])) "c" "s"
    (JValue.jarr []) (JValue.jarr []) rfl rfl

/-! ## C2: console and log file duplication (corrected) -/

/-- C2 as stated is false: on a successful run the final total line is
emitted with the console as its only sink; no event with the log-file sink
is ever in the trace, because the program never calls `print_plus`. -/
theorem dual_sink_counterexample :
    (ComputeSales.main (fun _ => FileResult.parsed (JValue.jarr [])) "c" "s").trace
        = [OutEvent.mk Sink.console "\nTotal Sales: $0.00"]
      ∧ OutEvent.mk Sink.logFile "\nTotal Sales: $0.00"
          ∉ (ComputeSales.main (fun _ => FileResult.parsed (JValue.jarr [])) "c" "s").trace := by
  have h0 : roundHalfEvenCents 0 = 0 := by simp [roundHalfEvenCents]
  have h : (ComputeSales.main (fun _ => FileResult.parsed (JValue.jarr [])) "c" "s").trace
      = [printEvt "\nTotal Sales: $0.00"] := by
    simp [ComputeSales.main, load_json, validate_price_catalog, validate_sales_records,
      validateCatalogFrom, validateSalesFrom, compute_total_sales, fmtMoney, h0]
    decide
  refine ⟨h, ?_⟩
  rw [h]
  decide

/-- C2 amended: the helper `print_plus` does write one line to both the
console and the log file, but no output of the program is routed through it:
every line `main` emits carries the console sink only. -/
theorem dual_sink_amended :
    (∀ content, print_plus content
        = [OutEvent.mk Sink.console content, OutEvent.mk Sink.logFile content])
      ∧ (∀ fs cp sp, ∀ e ∈ (ComputeSales.main fs cp sp).trace, e.sink = Sink.console) := by
  constructor
  · intro content
    rfl
  · intro fs cp sp e he
    have hmap : ∃ lines : List String, (ComputeSales.main fs cp sp).trace = lines.map printEvt := by
      cases h1 : (load_json fs cp).1 with
      | none => exact ⟨(load_json fs cp).2 ++ ["Exiting"], by simp [ComputeSales.main, h1]⟩
      | some v =>
        cases h2 : (load_json fs sp).1 with
        | none =>
          exact ⟨(load_json fs cp).2 ++ (validate_price_catalog v).2
              ++ (load_json fs sp).2 ++ ["Exiting"], by simp [ComputeSales.main, h1, h2]⟩
        | some s =>
          exact ⟨(load_json fs cp).2 ++ (validate_price_catalog v).2 ++ (load_json fs sp).2
              ++ (validate_sales_records s).2
              ++ (compute_total_sales (validate_price_catalog v).1 (validate_sales_records s).1).2
              ++ ["\nTotal Sales: $"
                  ++ fmtMoney (compute_total_sales (validate_price_catalog v).1
                        (validate_sales_records s).1).1],
            by simp [ComputeSales.main, h1, h2]⟩
    obtain ⟨lines, hl⟩ := hmap
    rw [hl] at he
    obtain ⟨a, _, rfl⟩ := List.mem_map.mp he
    rfl

/-- Witness for the amended C2: a line of a concrete failing run, shown to
carry the console sink by the theorem. -/
theorem dual_sink_amended_witness :
    (OutEvent.mk Sink.console "Exiting").sink = Sink.console :=
  dual_sink_amended.2 (fun _ => FileResult.notFound) "a" "b"
    (OutEvent.mk Sink.console "Exiting") (by decide)
